import Mathlib

/-!
Verification of the AthleteChain Solidity core (AthleteContract ledger,
DisputeResolution engine, SponsorshipNFT registry) via a shallow embedding.

Modelling conventions:
* `Addr` is `Nat`; the Solidity zero address is `0`.  EVM transaction senders
  are never the zero address, which surfaces as `sender ≠ 0` hypotheses on the
  step relation.
* `uint256` values are `Nat`.  Solidity 0.8 checked arithmetic reverts on
  overflow; where an overflow is reachable in principle (the milestone-amount
  sum loop, the `contractCount++` / `disputeCount++` post-increments) the
  embedding checks the `2^256` bound explicitly and fails with `Err.overflow`.
  The OpenZeppelin `Counters.increment` used for NFT token ids is `unchecked`,
  so the token counter is modelled with an explicit `% 2^256`.
* A Solidity `require` failure or nested-call revert rolls back the entire
  transaction, so every state-mutating entry point is modelled as a function
  returning `Except Err State`: an `Err` result means the pre-state is kept
  unchanged.  Each `require` message is mapped to the error taxonomy of the
  spec (`unauthorized`, `invalidState`, `invalidInput`, `alreadyExists`,
  `notFound`, `transferFailed`), plus `overflow`/`outOfBounds` for checked
  arithmetic panics and `insufficientAllowance` for the token-allowance
  precondition in `activateContract`.
* External value transfers (ETH `transfer`/`call`, ERC20 `transferFrom`) and
  the ERC20 `allowance` read are environment interactions; their outcomes are
  passed in as explicit parameters (`transferOk : Bool`, `allowance : Nat`).
* AccessControl role membership is passed in as `Addr → Bool` predicates.
-/

abbrev Addr := Nat

/-- Size of the `uint256` value space. -/
def U256 : Nat := 2 ^ 256

/-- Error taxonomy of the spec, plus checked-arithmetic panics. -/
inductive Err where
  | unauthorized
  | invalidState
  | invalidInput
  | alreadyExists
  | notFound
  | transferFailed
  | insufficientAllowance
  | overflow
  | outOfBounds
deriving DecidableEq, Repr

/-- `enum ContractState` of AthleteContract. -/
inductive ContractState where
  | draft
  | active
  | completed
  | disputed
  | terminated
deriving DecidableEq, Repr

/-- `enum MilestoneStatus` of AthleteContract. -/
inductive MilestoneStatus where
  | pending
  | completed
  | disputed
  | rejected
deriving DecidableEq, Repr

/-- `struct Milestone` of AthleteContract. -/
structure Milestone where
  description : String := ""
  amount : Nat := 0
  deadline : Nat := 0
  status : MilestoneStatus := .pending
  evidence : String := ""
  paid : Bool := false
deriving DecidableEq, Repr

/-- `struct SponsorshipContract` of AthleteContract.  The field defaults are
exactly the Solidity zero-initialized storage record that a mapping lookup at
a never-written key yields. -/
structure SponsorshipContract where
  athlete : Addr := 0
  sponsor : Addr := 0
  contractIPFSHash : String := ""
  totalValue : Nat := 0
  startDate : Nat := 0
  endDate : Nat := 0
  state : ContractState := .draft
  paymentToken : Addr := 0
  milestones : List Milestone := []
  arbitrators : List Addr := []
  updateHistory : List String := []
deriving DecidableEq, Repr

/-- Storage of the AthleteContract ledger:
`mapping(uint256 => SponsorshipContract) public contracts` (total, with the
zero-initialized record as default) and `uint256 public contractCount`. -/
structure Ledger where
  contracts : Nat → SponsorshipContract := fun _ => {}
  contractCount : Nat := 0

/-- Ledger with no contracts (freshly deployed storage). -/
def Ledger.init : Ledger := {}

/-- Write one storage slot of the `contracts` mapping. -/
def Ledger.writeAt (l : Ledger) (id : Nat) (c : SponsorshipContract) : Ledger :=
  { l with contracts := Function.update l.contracts id c }

/-- Amounts of the stored milestones of a contract, summed. -/
def milestoneSum (c : SponsorshipContract) : Nat :=
  (c.milestones.map (fun m => m.amount)).sum

/-- Milestones built by the `addMilestones` push loop from the three parallel
argument arrays. -/
def mkMilestones : List String → List Nat → List Nat → List Milestone
  | d :: ds, a :: amts, t :: tls =>
      { description := d, amount := a, deadline := t,
        status := .pending, evidence := "", paid := false } :: mkMilestones ds amts tls
  | _, _, _ => []

namespace AthleteContract

/-- `createContract` (role-gated variant).  Requires the athlete to hold
ATHLETE_ROLE or the caller AGENT_ROLE, the sponsor to hold SPONSOR_ROLE, and
`endDate > startDate`; assigns id `contractCount`, stores a Draft record and
post-increments the counter (checked, so it fails at the `uint256` maximum). -/
def createContract (hasAthleteRole hasAgentRole hasSponsorRole : Addr → Bool)
    (sender : Addr) (l : Ledger) (athlete sponsor : Addr)
    (contractIPFSHash : String) (totalValue startDate endDate : Nat)
    (paymentToken : Addr) (arbitrators : List Addr) :
    Except Err (Nat × Ledger) :=
  if hasAthleteRole athlete ∨ hasAgentRole sender then
    if hasSponsorRole sponsor then
      if startDate < endDate then
        if l.contractCount + 1 < U256 then
          .ok (l.contractCount,
            Ledger.writeAt { l with contractCount := l.contractCount + 1 }
              l.contractCount
              { athlete := athlete, sponsor := sponsor,
                contractIPFSHash := contractIPFSHash, totalValue := totalValue,
                startDate := startDate, endDate := endDate, state := .draft,
                paymentToken := paymentToken, milestones := [],
                arbitrators := arbitrators, updateHistory := [] })
        else .error .overflow
      else .error .invalidInput
    else .error .unauthorized
  else .error .unauthorized

/-- `addMilestones` (role-gated variant).  Caller must be athlete, sponsor or
an AGENT_ROLE holder; contract must be in Draft; the three arrays must have
equal length; the loop pushes one milestone per entry while summing the
amounts (checked addition), and the final `require` demands that the sum of
THIS CALL's amounts equal `totalValue` — a failure reverts the pushes. -/
def addMilestones (hasAgentRole : Addr → Bool) (sender : Addr) (l : Ledger)
    (contractId : Nat) (descriptions : List String)
    (amounts deadlines : List Nat) : Except Err Ledger :=
  let c := l.contracts contractId
  if sender = c.athlete ∨ sender = c.sponsor ∨ hasAgentRole sender then
    if c.state = .draft then
      if descriptions.length = amounts.length ∧ amounts.length = deadlines.length then
        if amounts.sum < U256 then
          if amounts.sum = c.totalValue then
            .ok (l.writeAt contractId
              { c with milestones := c.milestones ++ mkMilestones descriptions amounts deadlines })
          else .error .invalidInput
        else .error .overflow
      else .error .invalidInput
    else .error .invalidState
  else .error .unauthorized

/-- `activateContract` (role-gated variant).  Caller must be the sponsor, the
contract in Draft with at least one milestone; for a token payment asset the
sponsor's allowance to the ledger must cover `totalValue`. -/
def activateContract (sender : Addr) (allowance : Nat) (l : Ledger)
    (contractId : Nat) : Except Err Ledger :=
  let c := l.contracts contractId
  if sender = c.sponsor then
    if c.state = .draft then
      if 0 < c.milestones.length then
        if c.paymentToken ≠ 0 ∧ allowance < c.totalValue then
          .error .insufficientAllowance
        else
          .ok (l.writeAt contractId { c with state := .active })
      else .error .invalidState
    else .error .invalidState
  else .error .unauthorized

/-- `submitMilestone`.  Athlete-only, contract Active, index in bounds,
milestone Pending; records the evidence and marks the milestone Completed. -/
def submitMilestone (sender : Addr) (l : Ledger) (contractId milestoneIndex : Nat)
    (evidenceIPFSHash : String) : Except Err Ledger :=
  let c := l.contracts contractId
  if sender = c.athlete then
    if c.state = .active then
      if milestoneIndex < c.milestones.length then
        let m := c.milestones.getD milestoneIndex {}
        if m.status = .pending then
          let ms := c.milestones.set milestoneIndex
            { m with evidence := evidenceIPFSHash, status := .completed }
          .ok (l.writeAt contractId { c with milestones := ms })
        else .error .invalidState
      else .error .invalidInput
    else .error .invalidState
  else .error .unauthorized

/-- `approveMilestone`.  Sponsor-only, contract Active, index in bounds,
milestone Completed and unpaid; sets `paid := true` (before the external
transfer — the transfer outcome is the `transferOk` parameter, covering both
the ETH `transfer` and the ERC20 `transferFrom` branch), then flips the
contract to Completed when every milestone is paid. -/
def approveMilestone (transferOk : Bool) (sender : Addr) (l : Ledger)
    (contractId milestoneIndex : Nat) : Except Err Ledger :=
  let c := l.contracts contractId
  if sender = c.sponsor then
    if c.state = .active then
      if milestoneIndex < c.milestones.length then
        let m := c.milestones.getD milestoneIndex {}
        if m.status = .completed then
          if m.paid then .error .invalidState
          else if transferOk then
            let ms := c.milestones.set milestoneIndex { m with paid := true }
            .ok (l.writeAt contractId
              { c with milestones := ms,
                       state := if ms.all (fun x => x.paid) then .completed else c.state })
          else .error .transferFailed
        else .error .invalidState
      else .error .invalidInput
    else .error .invalidState
  else .error .unauthorized

/-- `releaseMilestonePayment` (address-literal variant of the ledger).
Sponsor-only, contract Active; NO index-bounds `require` (an out-of-bounds
array access is a checked panic), milestone Completed and unpaid; the ETH
branch requires `msg.value` to equal the amount before the forwarding call;
marks the milestone paid.  It performs NO all-paid check: the contract state
is left untouched. -/
def releaseMilestonePayment (transferOk : Bool) (msgValue : Nat) (sender : Addr)
    (l : Ledger) (contractId milestoneIndex : Nat) : Except Err Ledger :=
  let c := l.contracts contractId
  if sender = c.sponsor then
    if c.state = .active then
      if milestoneIndex < c.milestones.length then
        let m := c.milestones.getD milestoneIndex {}
        if m.status = .completed then
          if m.paid then .error .invalidState
          else if c.paymentToken = 0 then
            if msgValue = m.amount then
              if transferOk then
                .ok (l.writeAt contractId
                  { c with milestones := c.milestones.set milestoneIndex { m with paid := true } })
              else .error .transferFailed
            else .error .invalidInput
          else if transferOk then
            .ok (l.writeAt contractId
              { c with milestones := c.milestones.set milestoneIndex { m with paid := true } })
          else .error .transferFailed
        else .error .invalidState
      else .error .outOfBounds
    else .error .invalidState
  else .error .unauthorized

/-- `rejectMilestone`.  Sponsor-only, contract Active, index in bounds,
milestone Completed and unpaid; marks the milestone Rejected. -/
def rejectMilestone (sender : Addr) (l : Ledger) (contractId milestoneIndex : Nat) :
    Except Err Ledger :=
  let c := l.contracts contractId
  if sender = c.sponsor then
    if c.state = .active then
      if milestoneIndex < c.milestones.length then
        let m := c.milestones.getD milestoneIndex {}
        if m.status = .completed then
          if m.paid then .error .invalidState
          else
            .ok (l.writeAt contractId
              { c with milestones := c.milestones.set milestoneIndex { m with status := .rejected } })
        else .error .invalidState
      else .error .invalidInput
    else .error .invalidState
  else .error .unauthorized

/-- `raiseDispute`.  Athlete or sponsor only, contract Active; flips the
contract to Disputed. -/
def raiseDispute (sender : Addr) (l : Ledger) (contractId : Nat) :
    Except Err Ledger :=
  let c := l.contracts contractId
  if sender = c.athlete ∨ sender = c.sponsor then
    if c.state = .active then
      .ok (l.writeAt contractId { c with state := .disputed })
    else .error .invalidState
  else .error .unauthorized

/-- `resolveDispute` (role-gated variant).  Caller must be on the contract's
arbitrator list or hold ARBITRATOR_ROLE; contract must be Disputed; an
athlete-favor outcome reinstates Active, otherwise Terminated. -/
def resolveDispute (hasArbitratorRole : Addr → Bool) (sender : Addr) (l : Ledger)
    (contractId : Nat) (athleteFavor : Bool) : Except Err Ledger :=
  let c := l.contracts contractId
  if sender ∈ c.arbitrators ∨ hasArbitratorRole sender then
    if c.state = .disputed then
      .ok (l.writeAt contractId
        { c with state := if athleteFavor then .active else .terminated })
    else .error .invalidState
  else .error .unauthorized

/-- `updateContract` (role-gated variant).  Caller must be athlete, sponsor or
an AGENT_ROLE holder; NO lifecycle-state gate; pushes the current document
reference onto `updateHistory`, then overwrites it with the new reference. -/
def updateContract (hasAgentRole : Addr → Bool) (sender : Addr) (l : Ledger)
    (contractId : Nat) (newContractIPFSHash : String) : Except Err Ledger :=
  let c := l.contracts contractId
  if sender = c.athlete ∨ sender = c.sponsor ∨ hasAgentRole sender then
    .ok (l.writeAt contractId
      { c with updateHistory := c.updateHistory ++ [c.contractIPFSHash],
               contractIPFSHash := newContractIPFSHash })
  else .error .unauthorized

/-- Return tuple of the `getContractDetails` view. -/
structure ContractDetails where
  athlete : Addr
  sponsor : Addr
  contractIPFSHash : String
  totalValue : Nat
  startDate : Nat
  endDate : Nat
  state : ContractState
  paymentToken : Addr
deriving DecidableEq, Repr

/-- `getContractDetails`: a pure mapping read, total on every id. -/
def getContractDetails (l : Ledger) (contractId : Nat) : ContractDetails :=
  let c := l.contracts contractId
  { athlete := c.athlete, sponsor := c.sponsor,
    contractIPFSHash := c.contractIPFSHash, totalValue := c.totalValue,
    startDate := c.startDate, endDate := c.endDate, state := c.state,
    paymentToken := c.paymentToken }

/-- `getMilestoneCount`: a pure mapping read, total on every id. -/
def getMilestoneCount (l : Ledger) (contractId : Nat) : Nat :=
  (l.contracts contractId).milestones.length

end AthleteContract

/-- `struct Dispute` of DisputeResolution.  The field defaults are the
zero-initialized record returned by a mapping lookup at a never-written
dispute id.  The `arbitratorVotes` mapping is a total function defaulting to
`false`. -/
structure DisputeRec where
  contractId : Nat := 0
  initiator : Addr := 0
  evidenceIPFSHash : String := ""
  reason : String := ""
  timestamp : Nat := 0
  resolved : Bool := false
  athleteFavor : Bool := false
  votedArbitrators : List Addr := []
  arbitratorVotes : Addr → Bool := fun _ => false
  athleteVotes : Nat := 0
  sponsorVotes : Nat := 0

/-- Combined storage of the deployed system as seen by DisputeResolution: its
own dispute storage plus the AthleteContract ledger it calls back into. -/
structure System where
  ledger : Ledger := {}
  disputes : Nat → DisputeRec := fun _ => {}
  disputeCount : Nat := 0
  disputeIdOf : Nat → Nat := fun _ => 0

namespace DisputeResolution

/-- `createDispute`.  Caller must be athlete or sponsor of the target
contract, which must not already be Disputed or Terminated; the nested
`athleteContract.raiseDispute` call runs with the DisputeResolution contract
address (`engineAddr`) as its `msg.sender`, and its revert aborts the whole
call; then the dispute record is stored under id `disputeCount` and the
counter post-incremented (checked). -/
def createDispute (engineAddr sender : Addr) (s : System) (contractId : Nat)
    (evidenceIPFSHash reason : String) (now : Nat) :
    Except Err (Nat × System) :=
  let c := s.ledger.contracts contractId
  if sender = c.athlete ∨ sender = c.sponsor then
    if c.state = .disputed then .error .invalidState
    else if c.state = .terminated then .error .invalidState
    else
      match AthleteContract.raiseDispute engineAddr s.ledger contractId with
      | .error e => .error e
      | .ok l' =>
        if s.disputeCount + 1 < U256 then
          let d : DisputeRec :=
            { contractId := contractId, initiator := sender,
              evidenceIPFSHash := evidenceIPFSHash, reason := reason,
              timestamp := now, resolved := false }
          .ok (s.disputeCount,
            { s with ledger := l',
                     disputes := Function.update s.disputes s.disputeCount d,
                     disputeCount := s.disputeCount + 1,
                     disputeIdOf := Function.update s.disputeIdOf contractId s.disputeCount })
        else .error .overflow
  else .error .unauthorized

/-- Internal `resolveDispute` of DisputeResolution: marks the dispute resolved
with the majority direction (`athleteVotes > sponsorVotes`) and performs the
nested `athleteContract.resolveDispute(contractId, outcome)` call with the
engine address as `msg.sender`; a revert of the nested call aborts
everything. -/
def resolveDisputeVote (hasLedgerArbRole : Addr → Bool) (engineAddr : Addr)
    (s : System) (disputeId : Nat) : Except Err System :=
  let d := s.disputes disputeId
  if d.resolved then .error .invalidState
  else
    let favor := d.sponsorVotes < d.athleteVotes
    match AthleteContract.resolveDispute hasLedgerArbRole engineAddr s.ledger
        d.contractId favor with
    | .error e => .error e
    | .ok l' =>
      .ok { s with ledger := l',
                   disputes := Function.update s.disputes disputeId
                     { d with resolved := true, athleteFavor := favor } }

/-- `voteOnDispute`.  Caller must hold the engine's ARBITRATOR_ROLE; the
dispute must not be resolved; a repeat voter is rejected; the vote is
recorded (vote mapping, voter list, tally); then, if either tally strictly
exceeds half of the votes cast so far — including the vote just recorded —
the internal resolution runs immediately.  There is NO check that the
dispute id was ever created. -/
def voteOnDispute (hasArbRole hasLedgerArbRole : Addr → Bool)
    (engineAddr sender : Addr) (s : System) (disputeId : Nat)
    (athleteFavor : Bool) : Except Err System :=
  if hasArbRole sender then
    let d := s.disputes disputeId
    if d.resolved then .error .invalidState
    else if sender ∈ d.votedArbitrators then .error .alreadyExists
    else
      let d' : DisputeRec :=
        { d with arbitratorVotes := Function.update d.arbitratorVotes sender athleteFavor,
                 votedArbitrators := d.votedArbitrators ++ [sender],
                 athleteVotes := if athleteFavor then d.athleteVotes + 1 else d.athleteVotes,
                 sponsorVotes := if athleteFavor then d.sponsorVotes else d.sponsorVotes + 1 }
      let s' : System := { s with disputes := Function.update s.disputes disputeId d' }
      if d'.votedArbitrators.length / 2 < d'.athleteVotes ∨
         d'.votedArbitrators.length / 2 < d'.sponsorVotes then
        resolveDisputeVote hasLedgerArbRole engineAddr s' disputeId
      else .ok s'
  else .error .unauthorized

/-- `forceResolveDispute`.  Admin-only (the admin check is the `isAdmin`
hypothesis); bypasses voting, marks the dispute resolved with the given
outcome and performs the nested ledger call. -/
def forceResolveDispute (hasLedgerArbRole : Addr → Bool) (engineAddr : Addr)
    (isAdmin : Bool) (s : System) (disputeId : Nat) (athleteFavor : Bool) :
    Except Err System :=
  if isAdmin then
    let d := s.disputes disputeId
    if d.resolved then .error .invalidState
    else
      match AthleteContract.resolveDispute hasLedgerArbRole engineAddr s.ledger
          d.contractId athleteFavor with
      | .error e => .error e
      | .ok l' =>
        .ok { s with ledger := l',
                     disputes := Function.update s.disputes disputeId
                       { d with resolved := true, athleteFavor := athleteFavor } }
  else .error .unauthorized

end DisputeResolution

/-- Storage of the SponsorshipNFT registry: the OpenZeppelin `Counters`
token-id counter, the ERC721 owner mapping (`0` meaning nonexistent), token
URIs, and the two contract-id/token-id mappings. -/
structure NFTState where
  tokenCounter : Nat := 0
  owners : Nat → Addr := fun _ => 0
  tokenURIs : Nat → String := fun _ => ""
  contractIdOf : Nat → Nat := fun _ => 0
  tokenIdOf : Nat → Nat := fun _ => 0

namespace SponsorshipNFT

/-- ERC721 `_exists`: a token exists iff its owner is nonzero. -/
def tokenExists (n : NFTState) (tokenId : Nat) : Bool :=
  n.owners tokenId ≠ 0

/-- `mintSponsorshipNFT`.  Caller must hold MINTER_ROLE; the zero-sentinel
check `tokenIdOf[contractId] == 0` enforces at most one token per contract
id; `Counters.increment` (unchecked, hence the `% 2^256`) then `current`
yields the new token id; ERC721 `_mint` requires a nonzero recipient and a
not-yet-minted token id; finally both id mappings are recorded. -/
def mintSponsorshipNFT (hasMinterRole : Addr → Bool) (sender recipient : Addr)
    (n : NFTState) (contractId : Nat) (uri : String) :
    Except Err (Nat × NFTState) :=
  if hasMinterRole sender then
    if n.tokenIdOf contractId = 0 then
      let newTokenId := (n.tokenCounter + 1) % U256
      if recipient = 0 then .error .invalidInput
      else if n.owners newTokenId ≠ 0 then .error .alreadyExists
      else
        .ok (newTokenId,
          { tokenCounter := newTokenId,
            owners := Function.update n.owners newTokenId recipient,
            tokenURIs := Function.update n.tokenURIs newTokenId uri,
            contractIdOf := Function.update n.contractIdOf newTokenId contractId,
            tokenIdOf := Function.update n.tokenIdOf contractId newTokenId })
    else .error .alreadyExists
  else .error .unauthorized

/-- `getContractId`.  `require(_exists(tokenId))`, then the mapping read. -/
def getContractId (n : NFTState) (tokenId : Nat) : Except Err Nat :=
  if tokenExists n tokenId then .ok (n.contractIdOf tokenId)
  else .error .notFound

end SponsorshipNFT

/-- One externally triggered state-mutating transaction on the AthleteContract
ledger.  Role predicates are arbitrary per step (roles can be granted at any
time by the AccessControl admin); `msg.sender` is never the zero address. -/
inductive LStep : Ledger → Ledger → Prop where
  | create (hasAthleteRole hasAgentRole hasSponsorRole : Addr → Bool)
      (sender athlete sponsor : Addr) (hash : String)
      (totalValue startDate endDate : Nat) (paymentToken : Addr)
      (arbitrators : List Addr) (l : Ledger) (id : Nat) (l' : Ledger)
      (hs : sender ≠ 0)
      (h : AthleteContract.createContract hasAthleteRole hasAgentRole hasSponsorRole
        sender l athlete sponsor hash totalValue startDate endDate paymentToken
        arbitrators = .ok (id, l')) : LStep l l'
  | addMs (hasAgentRole : Addr → Bool) (sender : Addr) (contractId : Nat)
      (descriptions : List String) (amounts deadlines : List Nat)
      (l l' : Ledger) (hs : sender ≠ 0)
      (h : AthleteContract.addMilestones hasAgentRole sender l contractId
        descriptions amounts deadlines = .ok l') : LStep l l'
  | activate (sender : Addr) (allowance : Nat) (contractId : Nat)
      (l l' : Ledger) (hs : sender ≠ 0)
      (h : AthleteContract.activateContract sender allowance l contractId = .ok l') :
      LStep l l'
  | submit (sender : Addr) (contractId milestoneIndex : Nat) (evidence : String)
      (l l' : Ledger) (hs : sender ≠ 0)
      (h : AthleteContract.submitMilestone sender l contractId milestoneIndex
        evidence = .ok l') : LStep l l'
  | approve (transferOk : Bool) (sender : Addr) (contractId milestoneIndex : Nat)
      (l l' : Ledger) (hs : sender ≠ 0)
      (h : AthleteContract.approveMilestone transferOk sender l contractId
        milestoneIndex = .ok l') : LStep l l'
  | release (transferOk : Bool) (msgValue : Nat) (sender : Addr)
      (contractId milestoneIndex : Nat) (l l' : Ledger) (hs : sender ≠ 0)
      (h : AthleteContract.releaseMilestonePayment transferOk msgValue sender l
        contractId milestoneIndex = .ok l') : LStep l l'
  | reject (sender : Addr) (contractId milestoneIndex : Nat)
      (l l' : Ledger) (hs : sender ≠ 0)
      (h : AthleteContract.rejectMilestone sender l contractId milestoneIndex
        = .ok l') : LStep l l'
  | raise (sender : Addr) (contractId : Nat) (l l' : Ledger) (hs : sender ≠ 0)
      (h : AthleteContract.raiseDispute sender l contractId = .ok l') : LStep l l'
  | resolve (hasArbitratorRole : Addr → Bool) (sender : Addr) (contractId : Nat)
      (athleteFavor : Bool) (l l' : Ledger) (hs : sender ≠ 0)
      (h : AthleteContract.resolveDispute hasArbitratorRole sender l contractId
        athleteFavor = .ok l') : LStep l l'
  | update (hasAgentRole : Addr → Bool) (sender : Addr) (contractId : Nat)
      (newHash : String) (l l' : Ledger) (hs : sender ≠ 0)
      (h : AthleteContract.updateContract hasAgentRole sender l contractId
        newHash = .ok l') : LStep l l'

/-- Ledger states reachable from freshly deployed storage by any sequence of
transactions. -/
def LReachable (l : Ledger) : Prop :=
  Relation.ReflTransGen LStep Ledger.init l

/-- System states reachable by DisputeResolution is not needed by the claims;
the ledger-level step relation above is.  Below: concrete fixture states used
by the witness and counterexample theorems. -/
def noRole : Addr → Bool := fun _ => false

/-- Draft contract between athlete 1 and sponsor 2, value 100, ETH asset. -/
def cBase : SponsorshipContract :=
  { athlete := 1, sponsor := 2, contractIPFSHash := "h0", totalValue := 100,
    startDate := 10, endDate := 20, state := .draft, paymentToken := 0,
    milestones := [], arbitrators := [9], updateHistory := [] }

/-- Ledger holding only `cBase` under id 0. -/
def lDraft : Ledger :=
  { contracts := Function.update (fun _ => {}) 0 cBase, contractCount := 1 }

/-- Pending milestone of amount 100. -/
def msPending : Milestone := { description := "a", amount := 100, deadline := 15 }

/-- Completed, unpaid milestone of amount 100. -/
def msDone : Milestone :=
  { description := "a", amount := 100, deadline := 15, status := .completed,
    evidence := "e", paid := false }

/-- Draft contract with one pending milestone. -/
def cDraftMs : SponsorshipContract := { cBase with milestones := [msPending] }

/-- Active contract whose single milestone is Completed and unpaid. -/
def cActive : SponsorshipContract :=
  { cBase with state := .active, milestones := [msDone] }

/-- Disputed contract (arbitrator list `[9]` names the DisputeResolution
contract address 9). -/
def cDisputed : SponsorshipContract :=
  { cBase with state := .disputed, milestones := [msPending] }

/-- Like `lDraft` but with one pending milestone of amount 100. -/
def lDraftMs : Ledger :=
  { contracts := Function.update (fun _ => {}) 0 cDraftMs, contractCount := 1 }

/-- Ledger holding the active contract under id 0. -/
def lActive : Ledger :=
  { contracts := Function.update (fun _ => {}) 0 cActive, contractCount := 1 }

/-- Open zero-vote dispute record on contract 0. -/
def dOpen : DisputeRec :=
  { contractId := 0, initiator := 1, evidenceIPFSHash := "ev", reason := "r",
    timestamp := 100, resolved := false }

/-- Deployed system with contract 0 Disputed and the open zero-vote dispute 0
on it. -/
def sysDisputed : System :=
  { ledger := { contracts := Function.update (fun _ => {}) 0 cDisputed,
                contractCount := 1 },
    disputes := Function.update (fun _ => {}) 0 dOpen,
    disputeCount := 1,
    disputeIdOf := Function.update (fun _ => 0) 0 0 }

/-- The paid version of `msDone`. -/
def msPaid : Milestone := { msDone with paid := true }

/-- Ledger after the sponsor approves the single milestone of `lActive`:
milestone paid, contract Completed. -/
def lPaid : Ledger :=
  lActive.writeAt 0 { cActive with milestones := [msPaid], state := .completed }

/-- Ledger after `releaseMilestonePayment` on `lActive`: milestone paid but
contract state untouched. -/
def lRel : Ledger := lActive.writeAt 0 { cActive with milestones := [msPaid] }

/-- Ledger after the sponsor activates `lDraftMs`. -/
def lActivated : Ledger := lDraftMs.writeAt 0 { cDraftMs with state := .active }

/-- Zero-initialized contract record carrying one zero-amount milestone, as
left behind by an agent calling `addMilestones` on a never-created id. -/
def cPhantom : SponsorshipContract :=
  { milestones := [{ description := "", amount := 0, deadline := 0 }] }

/-- Ledger reached from `Ledger.init` by an agent's `addMilestones` call on
the never-created id 0: `contractCount` is still 0. -/
def lPhantom : Ledger :=
  { contracts := Function.update (fun _ => {}) 0 cPhantom, contractCount := 0 }

/-- Contract record created on top of `lDraft`. -/
def cNew : SponsorshipContract :=
  { athlete := 1, sponsor := 2, contractIPFSHash := "h", totalValue := 100,
    startDate := 10, endDate := 20, state := .draft, paymentToken := 0,
    milestones := [], arbitrators := [], updateHistory := [] }

/-- Ledger after creating `cNew` on `lDraft` (id 1 assigned). -/
def lC6 : Ledger :=
  { contracts := Function.update lDraft.contracts 1 cNew, contractCount := 2 }

/-- Ledger after `updateContract` with "h1" on `lDraft`. -/
def lUpd : Ledger :=
  lDraft.writeAt 0 { cBase with updateHistory := ["h0"], contractIPFSHash := "h1" }

/-- NFT storage after the first mint (for contract 0, owner 2, URI "u"). -/
def nft1 : NFTState :=
  { tokenCounter := 1,
    owners := Function.update (fun _ => 0) 1 2,
    tokenURIs := Function.update (fun _ => "") 1 "u",
    contractIdOf := Function.update (fun _ => 0) 1 0,
    tokenIdOf := Function.update (fun _ => 0) 0 1 }

/-- System whose ledger holds the active contract, no disputes yet. -/
def sysActive : System := { ledger := lActive }

/-- The active contract flipped to Disputed. -/
def cActiveDisputed : SponsorshipContract := { cActive with state := .disputed }

/-- Dispute record created by athlete 1 on contract 0 of `sysActive`. -/
def dC6 : DisputeRec :=
  { contractId := 0, initiator := 1, evidenceIPFSHash := "e", reason := "r",
    timestamp := 50, resolved := false }

/-- System after `createDispute` by the athlete on `sysActive` (the engine
address 1 coincides with the athlete so the nested `raiseDispute`
succeeds). -/
def sysAfterDispute : System :=
  { ledger := { contracts := Function.update lActive.contracts 0 cActiveDisputed,
                contractCount := 1 },
    disputes := Function.update (fun _ => {}) 0 dC6,
    disputeCount := 1,
    disputeIdOf := Function.update (fun _ => 0) 0 0 }

/-- Core fields of a contract record that only `createContract` ever writes:
they are all zero/Draft on a record the ledger never created. -/
def coreZero (c : SponsorshipContract) : Prop :=
  c.athlete = 0 ∧ c.sponsor = 0 ∧ c.totalValue = 0 ∧ c.startDate = 0 ∧
  c.endDate = 0 ∧ c.state = .draft ∧ c.paymentToken = 0

/-- Ledger after one successful `addMilestones` call on `lDraft` (written via
`writeAt`, so it is definitionally the call's result). -/
def lAfterAdd : Ledger := lDraft.writeAt 0 cDraftMs

section Inversion

open AthleteContract

/-- Success inversion for `createContract`: the returned id is the current
counter, the counter is bumped by one, and the fresh Draft record is stored
under the returned id. -/
theorem createContract_ok {hasAthleteRole hasAgentRole hasSponsorRole : Addr → Bool}
    {sender : Addr} {l : Ledger} {athlete sponsor : Addr} {hash : String}
    {totalValue startDate endDate : Nat} {paymentToken : Addr}
    {arbitrators : List Addr} {id : Nat} {l' : Ledger}
    (h : createContract hasAthleteRole hasAgentRole hasSponsorRole sender l athlete
      sponsor hash totalValue startDate endDate paymentToken arbitrators = .ok (id, l')) :
    id = l.contractCount ∧
    l'.contractCount = l.contractCount + 1 ∧
    l'.contracts = Function.update l.contracts l.contractCount
      ⟨athlete, sponsor, hash, totalValue, startDate, endDate, .draft,
        paymentToken, [], arbitrators, []⟩ := by
  simp only [createContract] at h
  split_ifs at h with h1 h2 h3 h4 <;> first
    | (injection h with h5; injection h5 with hid hl;
       exact ⟨hid.symm, by rw [← hl]; rfl, by rw [← hl]; rfl⟩)
    | cases h

/-- Success inversion for `addMilestones`. -/
theorem addMilestones_ok {hasAgentRole : Addr → Bool} {sender : Addr} {l : Ledger}
    {contractId : Nat} {descriptions : List String} {amounts deadlines : List Nat}
    {l' : Ledger}
    (h : addMilestones hasAgentRole sender l contractId descriptions amounts
      deadlines = .ok l') :
    (sender = (l.contracts contractId).athlete ∨
      sender = (l.contracts contractId).sponsor ∨ hasAgentRole sender) ∧
    (l.contracts contractId).state = .draft ∧
    descriptions.length = amounts.length ∧ amounts.length = deadlines.length ∧
    amounts.sum < U256 ∧ amounts.sum = (l.contracts contractId).totalValue ∧
    l' = l.writeAt contractId
      { l.contracts contractId with
        milestones := (l.contracts contractId).milestones ++
          mkMilestones descriptions amounts deadlines } := by
  simp only [addMilestones] at h
  split_ifs at h with h1 h2 h3 h4 h5 <;> first
    | (cases h; exact ⟨h1, h2, h3.1, h3.2, h4, h5, rfl⟩)
    | cases h

/-- Success inversion for `activateContract`. -/
theorem activateContract_ok {sender : Addr} {allowance : Nat} {l : Ledger}
    {contractId : Nat} {l' : Ledger}
    (h : activateContract sender allowance l contractId = .ok l') :
    sender = (l.contracts contractId).sponsor ∧
    (l.contracts contractId).state = .draft ∧
    0 < (l.contracts contractId).milestones.length ∧
    ¬((l.contracts contractId).paymentToken ≠ 0 ∧
      allowance < (l.contracts contractId).totalValue) ∧
    l' = l.writeAt contractId { l.contracts contractId with state := .active } := by
  simp only [activateContract] at h
  split_ifs at h with h1 h2 h3 h4 <;> first
    | (cases h; exact ⟨h1, h2, h3, h4, rfl⟩)
    | cases h

/-- Success inversion for `submitMilestone`. -/
theorem submitMilestone_ok {sender : Addr} {l : Ledger}
    {contractId milestoneIndex : Nat} {evidence : String} {l' : Ledger}
    (h : submitMilestone sender l contractId milestoneIndex evidence = .ok l') :
    sender = (l.contracts contractId).athlete ∧
    (l.contracts contractId).state = .active ∧
    milestoneIndex < (l.contracts contractId).milestones.length ∧
    ((l.contracts contractId).milestones.getD milestoneIndex {}).status = .pending ∧
    l' = l.writeAt contractId
      { l.contracts contractId with
        milestones := (l.contracts contractId).milestones.set milestoneIndex
          { (l.contracts contractId).milestones.getD milestoneIndex {} with
            evidence := evidence, status := .completed } } := by
  simp only [submitMilestone] at h
  split_ifs at h with h1 h2 h3 h4 <;> first
    | (cases h; exact ⟨h1, h2, h3, h4, rfl⟩)
    | cases h

/-- Success inversion for `approveMilestone`: the targeted milestone was
Completed and unpaid, becomes paid, and the contract flips to Completed
exactly when afterwards every milestone is paid. -/
theorem approveMilestone_ok {transferOk : Bool} {sender : Addr} {l : Ledger}
    {contractId milestoneIndex : Nat} {l' : Ledger}
    (h : approveMilestone transferOk sender l contractId milestoneIndex = .ok l') :
    sender = (l.contracts contractId).sponsor ∧
    (l.contracts contractId).state = .active ∧
    milestoneIndex < (l.contracts contractId).milestones.length ∧
    ((l.contracts contractId).milestones.getD milestoneIndex {}).status = .completed ∧
    ((l.contracts contractId).milestones.getD milestoneIndex {}).paid = false ∧
    transferOk = true ∧
    (l'.contractCount = l.contractCount ∧
      (∀ j, j ≠ contractId → l'.contracts j = l.contracts j)) ∧
    (l'.contracts contractId).milestones =
      (l.contracts contractId).milestones.set milestoneIndex
        { (l.contracts contractId).milestones.getD milestoneIndex {} with paid := true } ∧
    (l'.contracts contractId).state =
      (if ((l.contracts contractId).milestones.set milestoneIndex
          { (l.contracts contractId).milestones.getD milestoneIndex {} with
            paid := true }).all (fun x => x.paid) then ContractState.completed
        else (l.contracts contractId).state) := by
  simp only [approveMilestone] at h
  split_ifs at h with h1 h2 h3 h4 h5 h6 h7 <;> cases h <;>
    refine ⟨h1, h2, h3, h4, by simpa using h5, h6,
      ⟨rfl, fun j hj => by simp [Ledger.writeAt, Function.update_noteq hj]⟩,
      by simp [Ledger.writeAt], ?_⟩ <;>
    simp only [Ledger.writeAt, Function.update_same]
  · rw [if_pos h7]
  · rw [if_neg h7]

/-- Success inversion for `releaseMilestonePayment`: in both payment branches
the only state change is `paid := true` on the targeted milestone — every
other field, the contract state included, is untouched. -/
theorem releaseMilestonePayment_ok {transferOk : Bool} {msgValue : Nat}
    {sender : Addr} {l : Ledger} {contractId milestoneIndex : Nat} {l' : Ledger}
    (h : releaseMilestonePayment transferOk msgValue sender l contractId
      milestoneIndex = .ok l') :
    sender = (l.contracts contractId).sponsor ∧
    (l.contracts contractId).state = .active ∧
    milestoneIndex < (l.contracts contractId).milestones.length ∧
    ((l.contracts contractId).milestones.getD milestoneIndex {}).status = .completed ∧
    ((l.contracts contractId).milestones.getD milestoneIndex {}).paid = false ∧
    l' = l.writeAt contractId
      { l.contracts contractId with
        milestones := (l.contracts contractId).milestones.set milestoneIndex
          { (l.contracts contractId).milestones.getD milestoneIndex {} with
            paid := true } } := by
  simp only [releaseMilestonePayment] at h
  split_ifs at h with h1 h2 h3 h4 h5 h6 h7 h8 h9 <;> first
    | (cases h; exact ⟨h1, h2, h3, h4, by simpa using h5, rfl⟩)
    | cases h

/-- Success inversion for `rejectMilestone`. -/
theorem rejectMilestone_ok {sender : Addr} {l : Ledger}
    {contractId milestoneIndex : Nat} {l' : Ledger}
    (h : rejectMilestone sender l contractId milestoneIndex = .ok l') :
    sender = (l.contracts contractId).sponsor ∧
    (l.contracts contractId).state = .active ∧
    milestoneIndex < (l.contracts contractId).milestones.length ∧
    l' = l.writeAt contractId
      { l.contracts contractId with
        milestones := (l.contracts contractId).milestones.set milestoneIndex
          { (l.contracts contractId).milestones.getD milestoneIndex {} with
            status := .rejected } } := by
  simp only [rejectMilestone] at h
  split_ifs at h with h1 h2 h3 h4 h5 <;> first
    | (cases h; exact ⟨h1, h2, h3, rfl⟩)
    | cases h

/-- Success inversion for `raiseDispute`. -/
theorem raiseDispute_ok {sender : Addr} {l : Ledger} {contractId : Nat} {l' : Ledger}
    (h : raiseDispute sender l contractId = .ok l') :
    (sender = (l.contracts contractId).athlete ∨
      sender = (l.contracts contractId).sponsor) ∧
    (l.contracts contractId).state = .active ∧
    l' = l.writeAt contractId { l.contracts contractId with state := .disputed } := by
  simp only [raiseDispute] at h
  split_ifs at h with h1 h2 <;> first
    | (cases h; exact ⟨h1, h2, rfl⟩)
    | cases h

/-- Success inversion for `resolveDispute` on the ledger. -/
theorem ledger_resolveDispute_ok {hasArbitratorRole : Addr → Bool} {sender : Addr}
    {l : Ledger} {contractId : Nat} {athleteFavor : Bool} {l' : Ledger}
    (h : resolveDispute hasArbitratorRole sender l contractId athleteFavor = .ok l') :
    (sender ∈ (l.contracts contractId).arbitrators ∨ hasArbitratorRole sender) ∧
    (l.contracts contractId).state = .disputed ∧
    (l'.contractCount = l.contractCount ∧
      (∀ j, j ≠ contractId → l'.contracts j = l.contracts j)) ∧
    (l'.contracts contractId).state =
      (if athleteFavor then ContractState.active else ContractState.terminated) ∧
    (l'.contracts contractId).milestones = (l.contracts contractId).milestones ∧
    (l'.contracts contractId).athlete = (l.contracts contractId).athlete ∧
    (l'.contracts contractId).sponsor = (l.contracts contractId).sponsor := by
  simp only [resolveDispute] at h
  split_ifs at h with h1 h2 h3 <;> cases h <;>
    refine ⟨h1, h2,
      ⟨rfl, fun j hj => by simp [Ledger.writeAt, Function.update_noteq hj]⟩,
      ?_, by simp [Ledger.writeAt], by simp [Ledger.writeAt],
      by simp [Ledger.writeAt]⟩ <;>
    simp only [Ledger.writeAt, Function.update_same]
  · rw [if_pos h3]
  · rw [if_neg h3]

/-- Success inversion for `updateContract`. -/
theorem updateContract_ok {hasAgentRole : Addr → Bool} {sender : Addr} {l : Ledger}
    {contractId : Nat} {newHash : String} {l' : Ledger}
    (h : updateContract hasAgentRole sender l contractId newHash = .ok l') :
    (sender = (l.contracts contractId).athlete ∨
      sender = (l.contracts contractId).sponsor ∨ hasAgentRole sender) ∧
    l' = l.writeAt contractId
      { l.contracts contractId with
        updateHistory := (l.contracts contractId).updateHistory ++
          [(l.contracts contractId).contractIPFSHash],
        contractIPFSHash := newHash } := by
  simp only [updateContract] at h
  split_ifs at h with h1 <;> first
    | (cases h; exact ⟨h1, rfl⟩)
    | cases h

end Inversion

section ListHelpers

/-- `getD` after `set` at the same in-bounds index returns the new value. -/
theorem getD_set_self {α : Type} (ms : List α) (i : Nat) (v d : α)
    (h : i < ms.length) : (ms.set i v).getD i d = v := by
  induction ms generalizing i with
  | nil => simp at h
  | cons a t ih =>
    cases i with
    | zero => rfl
    | succ k => exact ih k (by simpa using h)

/-- `getD` after `set` at a different index is unchanged. -/
theorem getD_set_ne {α : Type} (ms : List α) (i j : Nat) (v d : α)
    (h : i ≠ j) : (ms.set i v).getD j d = ms.getD j d := by
  induction ms generalizing i j with
  | nil => simp
  | cons a t ih =>
    cases i with
    | zero => cases j with
      | zero => exact absurd rfl h
      | succ m => rfl
    | succ k => cases j with
      | zero => rfl
      | succ m => exact ih k m (by omega)

/-- `getD` on the left part of an append. -/
theorem getD_append_left {α : Type} (xs ys : List α) (i : Nat) (d : α)
    (h : i < xs.length) : (xs ++ ys).getD i d = xs.getD i d := by
  induction xs generalizing i with
  | nil => simp at h
  | cons a t ih =>
    cases i with
    | zero => rfl
    | succ k => exact ih k (by simpa using h)

/-- `getD` out of bounds yields the default. -/
theorem getD_oob {α : Type} (xs : List α) (i : Nat) (d : α)
    (h : xs.length ≤ i) : xs.getD i d = d := by
  induction xs generalizing i with
  | nil => cases i <;> rfl
  | cons a t ih =>
    cases i with
    | zero => simp at h
    | succ k => exact ih k (by simpa using h)

/-- Amounts of the milestones built by the `addMilestones` loop are exactly
the argument amounts when the three arrays have equal length. -/
theorem mkMilestones_amounts (ds : List String) (amts tls : List Nat)
    (h1 : ds.length = amts.length) (h2 : amts.length = tls.length) :
    (mkMilestones ds amts tls).map (fun m => m.amount) = amts := by
  induction ds generalizing amts tls with
  | nil =>
    cases amts with
    | nil => rfl
    | cons a r => simp at h1
  | cons d dr ih =>
    cases amts with
    | nil => simp at h1
    | cons a ar =>
      cases tls with
      | nil => simp at h2
      | cons t tr =>
        simp only [mkMilestones, List.map_cons]
        rw [ih ar tr (by simpa using h1) (by simpa using h2)]

end ListHelpers

/-- Claim C8: in every lifecycle state, a successful `updateContract` call by
an authorized caller pushes the current document reference onto the update
history before overwriting it — the history grows by exactly one, its newest
entry equals the document reference held immediately before the call, and the
stored reference afterwards equals the new one; authorized calls succeed in
any state (there is no lifecycle gate). -/
theorem updateContract_round_trip (hasAgentRole : Addr → Bool) (sender : Addr)
    (l : Ledger) (contractId : Nat) (newHash : String) :
    ((sender = (l.contracts contractId).athlete ∨
        sender = (l.contracts contractId).sponsor ∨ hasAgentRole sender) →
      (AthleteContract.updateContract hasAgentRole sender l contractId newHash).isOk
        = true) ∧
    (∀ l', AthleteContract.updateContract hasAgentRole sender l contractId newHash
        = .ok l' →
      (l'.contracts contractId).updateHistory =
        (l.contracts contractId).updateHistory ++
          [(l.contracts contractId).contractIPFSHash] ∧
      (l'.contracts contractId).updateHistory.length =
        (l.contracts contractId).updateHistory.length + 1 ∧
      (l'.contracts contractId).updateHistory.getLast? =
        some (l.contracts contractId).contractIPFSHash ∧
      (l'.contracts contractId).contractIPFSHash = newHash) := by
  constructor
  · intro hauth
    simp only [AthleteContract.updateContract]
    rw [if_pos hauth]
    rfl
  · intro l' h
    obtain ⟨-, rfl⟩ := updateContract_ok h
    refine ⟨?_, ?_, ?_, ?_⟩ <;>
      simp [Ledger.writeAt]

/-- Witness for C8 at a concrete ledger: updating `lDraft`'s contract 0 from
document "h0" to "h1" succeeds and produces history `["h0"]`. -/
theorem updateContract_round_trip_witness :
    (AthleteContract.updateContract noRole 1 lDraft 0 "h1").isOk = true ∧
    (lUpd.contracts 0).updateHistory = ["h0"] ∧
    (lUpd.contracts 0).updateHistory.length = 1 ∧
    (lUpd.contracts 0).updateHistory.getLast? = some "h0" ∧
    (lUpd.contracts 0).contractIPFSHash = "h1" := by
  have h := updateContract_round_trip noRole 1 lDraft 0 "h1"
  exact ⟨h.1 (Or.inl rfl), (h.2 lUpd rfl).1, (h.2 lUpd rfl).2.1,
    (h.2 lUpd rfl).2.2.1, (h.2 lUpd rfl).2.2.2⟩

/-- Claim C5: `activateContract` on a contract with zero milestones never
succeeds; from Draft with at least one milestone (and, for a token payment
asset, sufficient sponsor allowance) the sponsor's call succeeds, and any
further `activateContract` call by the sponsor then fails with InvalidState
(the failing call returns no new state, i.e. the stored state is kept). -/
theorem activateContract_exactly_once (l : Ledger) (contractId : Nat) :
    ((l.contracts contractId).milestones = [] →
      ∀ (sender : Addr) (allowance : Nat) (l'' : Ledger),
        AthleteContract.activateContract sender allowance l contractId ≠ .ok l'') ∧
    (∀ (sender : Addr) (allowance : Nat),
      sender = (l.contracts contractId).sponsor →
      (l.contracts contractId).state = .draft →
      (l.contracts contractId).milestones ≠ [] →
      ((l.contracts contractId).paymentToken ≠ 0 →
        (l.contracts contractId).totalValue ≤ allowance) →
      ∃ l', AthleteContract.activateContract sender allowance l contractId = .ok l' ∧
        (l'.contracts contractId).state = .active ∧
        ∀ allowance2 : Nat,
          AthleteContract.activateContract sender allowance2 l' contractId =
            .error .invalidState) := by
  constructor
  · intro hms sender allowance l'' hEq
    obtain ⟨-, -, h3, -⟩ := activateContract_ok hEq
    rw [hms] at h3
    simp at h3
  · intro sender allowance h1 h2 h3 h4
    have hcond : ¬((l.contracts contractId).paymentToken ≠ 0 ∧
        allowance < (l.contracts contractId).totalValue) := by
      rintro ⟨hpt, hlt⟩
      exact absurd hlt (not_lt.mpr (h4 hpt))
    refine ⟨l.writeAt contractId { l.contracts contractId with state := .active },
      ?_, ?_, ?_⟩
    · simp only [AthleteContract.activateContract]
      rw [if_pos h1, if_pos h2, if_pos (List.length_pos.mpr h3), if_neg hcond]
    · simp [Ledger.writeAt]
    · intro allowance2
      simp only [AthleteContract.activateContract, Ledger.writeAt,
        Function.update_same]
      rw [if_pos h1, if_neg (by simp)]

/-- Witness for C5 at a concrete ledger: activating `lDraftMs` as sponsor 2
succeeds, the second activation fails with InvalidState, and activation of the
milestone-free `lDraft` never succeeds. -/
theorem activateContract_exactly_once_witness :
    (AthleteContract.activateContract 2 0 lDraftMs 0 = .ok lActivated ∧
      (lActivated.contracts 0).state = .active ∧
      AthleteContract.activateContract 2 0 lActivated 0 = .error .invalidState) ∧
    AthleteContract.activateContract 2 0 lDraft 0 ≠ .ok lActivated := by
  have h := activateContract_exactly_once lDraftMs 0
  obtain ⟨l', hok, hst, hsecond⟩ :=
    h.2 2 0 rfl rfl (by simp [cDraftMs, lDraftMs]) (fun hpt => absurd rfl hpt)
  have hl' : l' = lActivated := by
    have := hok
    rw [show AthleteContract.activateContract 2 0 lDraftMs 0 = .ok lActivated
      from rfl] at this
    exact (Except.ok.inj this).symm
  subst hl'
  exact ⟨⟨hok, hst, hsecond 0⟩,
    (activateContract_exactly_once lDraft 0).1 rfl 2 0 lActivated⟩

/-- Claim C7: at most one NFT token exists per contract id — once a mint for a
contract id succeeded, any further mint for the same contract id by any
minter fails with AlreadyExists; and `getContractId` on a token id that was
never minted (no owner recorded) fails with NotFound. -/
theorem nft_one_token_per_contract (hasMinterRole : Addr → Bool)
    (sender recipient : Addr) (n : NFTState) (contractId : Nat) (uri : String)
    (tid : Nat) (n' : NFTState)
    (hctr : n.tokenCounter + 1 < U256)
    (h : SponsorshipNFT.mintSponsorshipNFT hasMinterRole sender recipient n
      contractId uri = .ok (tid, n')) :
    (∀ (hasMinterRole2 : Addr → Bool) (sender2 recipient2 : Addr) (uri2 : String),
      hasMinterRole2 sender2 →
      SponsorshipNFT.mintSponsorshipNFT hasMinterRole2 sender2 recipient2 n'
        contractId uri2 = .error .alreadyExists) ∧
    (∀ (m : NFTState) (tokenId : Nat), m.owners tokenId = 0 →
      SponsorshipNFT.getContractId m tokenId = .error .notFound) := by
  constructor
  · intro r2 s2 rec2 u2 hrole2
    simp only [SponsorshipNFT.mintSponsorshipNFT] at h
    split_ifs at h with h1 h2 h3 h4 <;> cases h
    have hnz : (n.tokenCounter + 1) % U256 ≠ 0 := by
      rw [Nat.mod_eq_of_lt hctr]
      exact Nat.succ_ne_zero _
    simp [SponsorshipNFT.mintSponsorshipNFT, hrole2, Function.update_same, hnz]
  · intro m tokenId hz
    simp [SponsorshipNFT.getContractId, SponsorshipNFT.tokenExists, hz]

/-- Witness for C7 at the fresh NFT storage: the first mint for contract 0
succeeds (token 1), the second mint for contract 0 fails with AlreadyExists,
and `getContractId` on the unminted token id 7 fails with NotFound. -/
theorem nft_one_token_per_contract_witness :
    SponsorshipNFT.mintSponsorshipNFT (fun _ => true) 9 3 nft1 0 "u2" =
      .error .alreadyExists ∧
    SponsorshipNFT.getContractId nft1 7 = .error .notFound := by
  have h := nft_one_token_per_contract (fun _ => true) 9 2 {} 0 "u" 1 nft1
    (by decide) rfl
  exact ⟨h.1 (fun _ => true) 9 3 "u2" rfl, h.2 nft1 7 rfl⟩

/-- Claim C2: the `paid` flag of a milestone is a one-way latch — a successful
payment release (`approveMilestone` or `releaseMilestonePayment`) finds it
false and sets it true; a release attempt by the sponsor on an already-paid
milestone fails with InvalidState (in every contract state, so no payment
logic runs and, the call reverting, the stored state is unchanged); and no
ledger transaction whatsoever resets `paid` to false on an existing
contract. -/
theorem milestone_paid_latch :
    (∀ (transferOk : Bool) (sender : Addr) (l : Ledger) (cid idx : Nat)
        (l' : Ledger),
      AthleteContract.approveMilestone transferOk sender l cid idx = .ok l' →
      ((l.contracts cid).milestones.getD idx {}).paid = false ∧
      ((l'.contracts cid).milestones.getD idx {}).paid = true) ∧
    (∀ (transferOk : Bool) (msgValue : Nat) (sender : Addr) (l : Ledger)
        (cid idx : Nat) (l' : Ledger),
      AthleteContract.releaseMilestonePayment transferOk msgValue sender l cid idx
        = .ok l' →
      ((l.contracts cid).milestones.getD idx {}).paid = false ∧
      ((l'.contracts cid).milestones.getD idx {}).paid = true) ∧
    (∀ (transferOk : Bool) (sender : Addr) (l : Ledger) (cid idx : Nat),
      sender = (l.contracts cid).sponsor →
      ((l.contracts cid).milestones.getD idx {}).paid = true →
      AthleteContract.approveMilestone transferOk sender l cid idx =
        .error .invalidState) ∧
    (∀ (transferOk : Bool) (msgValue : Nat) (sender : Addr) (l : Ledger)
        (cid idx : Nat),
      sender = (l.contracts cid).sponsor →
      ((l.contracts cid).milestones.getD idx {}).paid = true →
      AthleteContract.releaseMilestonePayment transferOk msgValue sender l cid idx =
        .error .invalidState) ∧
    (∀ (l l' : Ledger), LStep l l' → ∀ (cid idx : Nat),
      cid < l.contractCount →
      ((l.contracts cid).milestones.getD idx {}).paid = true →
      ((l'.contracts cid).milestones.getD idx {}).paid = true) := by
  refine ⟨?_, ?_, ?_, ?_, ?_⟩
  · intro t sender l cid idx l' h
    obtain ⟨-, -, h3, -, h5, -, -, hms, -⟩ := approveMilestone_ok h
    refine ⟨h5, ?_⟩
    rw [hms, getD_set_self _ _ _ _ h3]
  · intro t mv sender l cid idx l' h
    obtain ⟨-, -, h3, -, h5, rfl⟩ := releaseMilestonePayment_ok h
    refine ⟨h5, ?_⟩
    simp only [Ledger.writeAt, Function.update_same]
    rw [getD_set_self _ _ _ _ h3]
  · intro t sender l cid idx hs hp
    have hidx : idx < (l.contracts cid).milestones.length := by
      by_contra hge
      rw [getD_oob _ _ _ (le_of_not_lt hge)] at hp
      exact absurd hp (by decide)
    simp only [AthleteContract.approveMilestone]
    rw [if_pos hs]
    by_cases hst : (l.contracts cid).state = .active
    · rw [if_pos hst, if_pos hidx]
      by_cases hcomp : ((l.contracts cid).milestones.getD idx {}).status = .completed
      · rw [if_pos hcomp, if_pos hp]
      · rw [if_neg hcomp]
    · rw [if_neg hst]
  · intro t mv sender l cid idx hs hp
    have hidx : idx < (l.contracts cid).milestones.length := by
      by_contra hge
      rw [getD_oob _ _ _ (le_of_not_lt hge)] at hp
      exact absurd hp (by decide)
    simp only [AthleteContract.releaseMilestonePayment]
    rw [if_pos hs]
    by_cases hst : (l.contracts cid).state = .active
    · rw [if_pos hst, if_pos hidx]
      by_cases hcomp : ((l.contracts cid).milestones.getD idx {}).status = .completed
      · rw [if_pos hcomp, if_pos hp]
      · rw [if_neg hcomp]
    · rw [if_neg hst]
  · intro l l' st cid idx hcid hp
    have hidx : idx < (l.contracts cid).milestones.length := by
      by_contra hge
      rw [getD_oob _ _ _ (le_of_not_lt hge)] at hp
      exact absurd hp (by decide)
    cases st with
    | create hA hAg hS sndr athlete sponsor hash tv sd ed pt arbs lA id lB hns h =>
      obtain ⟨-, -, hcontr⟩ := createContract_ok h
      rw [hcontr, Function.update_noteq (by omega)]
      exact hp
    | addMs hA sndr tgt descs amts dls lA lB hns h =>
      obtain ⟨-, -, -, -, -, -, rfl⟩ := addMilestones_ok h
      by_cases hc : cid = tgt
      · subst hc
        simp only [Ledger.writeAt, Function.update_same]
        rw [getD_append_left _ _ _ _ hidx]
        exact hp
      · simp only [Ledger.writeAt]
        rw [Function.update_noteq hc]
        exact hp
    | activate sndr allowance tgt lA lB hns h =>
      obtain ⟨-, -, -, -, rfl⟩ := activateContract_ok h
      by_cases hc : cid = tgt
      · subst hc
        simp only [Ledger.writeAt, Function.update_same]
        exact hp
      · simp only [Ledger.writeAt]
        rw [Function.update_noteq hc]
        exact hp
    | submit sndr tgt idxS ev lA lB hns h =>
      obtain ⟨-, -, hlen, -, rfl⟩ := submitMilestone_ok h
      by_cases hc : cid = tgt
      · subst hc
        simp only [Ledger.writeAt, Function.update_same]
        by_cases hi : idxS = idx
        · subst hi
          rw [getD_set_self _ _ _ _ hlen]
          exact hp
        · rw [getD_set_ne _ _ _ _ _ hi]
          exact hp
      · simp only [Ledger.writeAt]
        rw [Function.update_noteq hc]
        exact hp
    | approve t sndr tgt idxS lA lB hns h =>
      obtain ⟨-, -, hlen, -, -, -, hoth, hms, -⟩ := approveMilestone_ok h
      by_cases hc : cid = tgt
      · subst hc
        rw [hms]
        by_cases hi : idxS = idx
        · subst hi
          rw [getD_set_self _ _ _ _ hlen]
        · rw [getD_set_ne _ _ _ _ _ hi]
          exact hp
      · rw [hoth.2 cid hc]
        exact hp
    | release t mv sndr tgt idxS lA lB hns h =>
      obtain ⟨-, -, hlen, -, -, rfl⟩ := releaseMilestonePayment_ok h
      by_cases hc : cid = tgt
      · subst hc
        simp only [Ledger.writeAt, Function.update_same]
        by_cases hi : idxS = idx
        · subst hi
          rw [getD_set_self _ _ _ _ hlen]
        · rw [getD_set_ne _ _ _ _ _ hi]
          exact hp
      · simp only [Ledger.writeAt]
        rw [Function.update_noteq hc]
        exact hp
    | reject sndr tgt idxS lA lB hns h =>
      obtain ⟨-, -, hlen, rfl⟩ := rejectMilestone_ok h
      by_cases hc : cid = tgt
      · subst hc
        simp only [Ledger.writeAt, Function.update_same]
        by_cases hi : idxS = idx
        · subst hi
          rw [getD_set_self _ _ _ _ hlen]
          exact hp
        · rw [getD_set_ne _ _ _ _ _ hi]
          exact hp
      · simp only [Ledger.writeAt]
        rw [Function.update_noteq hc]
        exact hp
    | raise sndr tgt lA lB hns h =>
      obtain ⟨-, -, rfl⟩ := raiseDispute_ok h
      by_cases hc : cid = tgt
      · subst hc
        simp only [Ledger.writeAt, Function.update_same]
        exact hp
      · simp only [Ledger.writeAt]
        rw [Function.update_noteq hc]
        exact hp
    | resolve hA sndr tgt fav lA lB hns h =>
      obtain ⟨-, -, hoth, -, hms, -, -⟩ := ledger_resolveDispute_ok h
      by_cases hc : cid = tgt
      · subst hc
        rw [hms]
        exact hp
      · rw [hoth.2 cid hc]
        exact hp
    | update hA sndr tgt nh lA lB hns h =>
      obtain ⟨-, rfl⟩ := updateContract_ok h
      by_cases hc : cid = tgt
      · subst hc
        simp only [Ledger.writeAt, Function.update_same]
        exact hp
      · simp only [Ledger.writeAt]
        rw [Function.update_noteq hc]
        exact hp

/-- Witness for C2 at a concrete ledger: approving the completed milestone of
`lActive` flips `paid` from false to true, and every second release attempt
fails with InvalidState; similarly for `releaseMilestonePayment`. -/
theorem milestone_paid_latch_witness :
    ((lActive.contracts 0).milestones.getD 0 {}).paid = false ∧
    ((lPaid.contracts 0).milestones.getD 0 {}).paid = true ∧
    AthleteContract.approveMilestone true 2 lPaid 0 0 = .error .invalidState ∧
    ((lRel.contracts 0).milestones.getD 0 {}).paid = true ∧
    AthleteContract.releaseMilestonePayment true 100 2 lRel 0 0 =
      .error .invalidState :=
  ⟨(milestone_paid_latch.1 true 2 lActive 0 0 lPaid rfl).1,
    (milestone_paid_latch.1 true 2 lActive 0 0 lPaid rfl).2,
    milestone_paid_latch.2.2.1 true 2 lPaid 0 0 rfl rfl,
    (milestone_paid_latch.2.1 true 100 2 lActive 0 0 lRel rfl).2,
    milestone_paid_latch.2.2.2.1 true 100 2 lRel 0 0 rfl rfl⟩

/-- Claim C3 counterexample: two successful `addMilestones` calls of 100 each
on the Draft contract of `lDraft` (totalValue 100) leave the stored milestone
amounts summing to 200 ≠ 100 with the contract still in Draft — the sum check
compares only the current call's amounts, so the stored-sum equality is not
an invariant of Draft and the second call does not fail. -/
theorem addMilestones_repeat_breaks_sum :
    ((AthleteContract.addMilestones noRole 1 lDraft 0 ["a"] [100] [5]).bind
      (fun l => AthleteContract.addMilestones noRole 1 l 0 ["b"] [100] [6])).map
      (fun l => (milestoneSum (l.contracts 0), (l.contracts 0).totalValue,
        (l.contracts 0).state)) =
    .ok (200, 100, ContractState.draft) := rfl

/-- Claim C3 (amended): each `addMilestones` call checks that ITS OWN amounts
sum exactly to `totalValue` — a call whose amounts sum differently fails with
InvalidInput and (the call reverting) adds no milestones; hence a successful
call grows the stored milestone sum by exactly `totalValue`, and after the
first successful call on a contract with no milestones the stored sum equals
`totalValue`; the check ignores previously stored milestones, so the equality
is not maintained across repeated calls. -/
theorem addMilestones_sum_per_call :
    (∀ (hasAgentRole : Addr → Bool) (sender : Addr) (l : Ledger) (cid : Nat)
        (descs : List String) (amts dls : List Nat),
      (sender = (l.contracts cid).athlete ∨ sender = (l.contracts cid).sponsor ∨
        hasAgentRole sender) →
      (l.contracts cid).state = .draft →
      descs.length = amts.length → amts.length = dls.length →
      amts.sum < U256 → amts.sum ≠ (l.contracts cid).totalValue →
      AthleteContract.addMilestones hasAgentRole sender l cid descs amts dls =
        .error .invalidInput) ∧
    (∀ (hasAgentRole : Addr → Bool) (sender : Addr) (l : Ledger) (cid : Nat)
        (descs : List String) (amts dls : List Nat) (l' : Ledger),
      AthleteContract.addMilestones hasAgentRole sender l cid descs amts dls =
        .ok l' →
      amts.sum = (l.contracts cid).totalValue ∧
      milestoneSum (l'.contracts cid) =
        milestoneSum (l.contracts cid) + (l.contracts cid).totalValue) ∧
    (∀ (hasAgentRole : Addr → Bool) (sender : Addr) (l : Ledger) (cid : Nat)
        (descs : List String) (amts dls : List Nat) (l' : Ledger),
      AthleteContract.addMilestones hasAgentRole sender l cid descs amts dls =
        .ok l' →
      (l.contracts cid).milestones = [] →
      milestoneSum (l'.contracts cid) = (l.contracts cid).totalValue) := by
  have key : ∀ (hasAgentRole : Addr → Bool) (sender : Addr) (l : Ledger)
      (cid : Nat) (descs : List String) (amts dls : List Nat) (l' : Ledger),
      AthleteContract.addMilestones hasAgentRole sender l cid descs amts dls =
        .ok l' →
      amts.sum = (l.contracts cid).totalValue ∧
      milestoneSum (l'.contracts cid) =
        milestoneSum (l.contracts cid) + (l.contracts cid).totalValue := by
    intro hA sender l cid descs amts dls l' h
    obtain ⟨-, -, hl1, hl2, -, hsum, rfl⟩ := addMilestones_ok h
    refine ⟨hsum, ?_⟩
    simp only [milestoneSum, Ledger.writeAt, Function.update_same]
    rw [List.map_append, List.sum_append, mkMilestones_amounts _ _ _ hl1 hl2, hsum]
  refine ⟨?_, key, ?_⟩
  · intro hA sender l cid descs amts dls hauth hdraft hl1 hl2 hlt hne
    simp only [AthleteContract.addMilestones]
    rw [if_pos hauth, if_pos hdraft, if_pos ⟨hl1, hl2⟩, if_pos hlt, if_neg hne]
  · intro hA sender l cid descs amts dls l' h hempty
    have hz : milestoneSum (l.contracts cid) = 0 := by
      simp [milestoneSum, hempty]
    rw [(key hA sender l cid descs amts dls l' h).2, hz, Nat.zero_add]

/-- Witness for the amended C3 at a concrete ledger: on `lDraft` (total 100),
amounts `[95]` fail with InvalidInput while amounts `[100]` succeed and make
the stored sum equal `totalValue`. -/
theorem addMilestones_sum_per_call_witness :
    AthleteContract.addMilestones noRole 1 lDraft 0 ["a"] [95] [15] =
      .error .invalidInput ∧
    (100 : Nat) = (lDraft.contracts 0).totalValue ∧
    milestoneSum (lAfterAdd.contracts 0) = (lDraft.contracts 0).totalValue := by
  refine ⟨?_, ?_, ?_⟩
  · exact addMilestones_sum_per_call.1 noRole 1 lDraft 0 ["a"] [95] [15]
      (Or.inl rfl) rfl rfl rfl (by decide) (by decide)
  · exact (addMilestones_sum_per_call.2.1 noRole 1 lDraft 0
      ["a"] [100] [15] lAfterAdd rfl).1
  · exact addMilestones_sum_per_call.2.2 noRole 1 lDraft 0
      ["a"] [100] [15] lAfterAdd rfl rfl

/-- Claim C4 counterexample: on `lActive` (single milestone, Completed,
unpaid), a successful `releaseMilestonePayment` pays the last milestone —
every milestone is then paid — yet the contract state remains Active, not
Completed: `releaseMilestonePayment` performs no all-paid check. -/
theorem releaseMilestonePayment_leaves_active :
    (AthleteContract.releaseMilestonePayment true 100 2 lActive 0 0).map
      (fun l => ((l.contracts 0).state,
        (l.contracts 0).milestones.all (fun m => m.paid))) =
      .ok (ContractState.active, true) := rfl

/-- Claim C4 (amended): the derived Active → Completed transition exists only
in `approveMilestone` — after a successful `approveMilestone` the contract is
Completed precisely when every milestone is paid and remains Active
otherwise, while a successful `releaseMilestonePayment` always leaves the
contract Active, even when every milestone is paid. -/
theorem completed_transition_only_in_approve :
    (∀ (transferOk : Bool) (sender : Addr) (l : Ledger) (cid idx : Nat)
        (l' : Ledger),
      AthleteContract.approveMilestone transferOk sender l cid idx = .ok l' →
      ((l'.contracts cid).milestones.all (fun m => m.paid) = true →
        (l'.contracts cid).state = .completed) ∧
      ((l'.contracts cid).milestones.all (fun m => m.paid) = false →
        (l'.contracts cid).state = .active)) ∧
    (∀ (transferOk : Bool) (msgValue : Nat) (sender : Addr) (l : Ledger)
        (cid idx : Nat) (l' : Ledger),
      AthleteContract.releaseMilestonePayment transferOk msgValue sender l cid idx
        = .ok l' →
      (l'.contracts cid).state = .active) := by
  constructor
  · intro t sender l cid idx l' h
    obtain ⟨-, h2, -, -, -, -, -, hms, hstate⟩ := approveMilestone_ok h
    constructor
    · intro hall
      rw [hms] at hall
      rw [hstate, if_pos hall]
    · intro hall
      rw [hms] at hall
      rw [hstate, if_neg (by simp only [hall]; exact Bool.false_ne_true), h2]
  · intro t mv sender l cid idx l' h
    obtain ⟨-, h2, -, -, -, rfl⟩ := releaseMilestonePayment_ok h
    simp only [Ledger.writeAt, Function.update_same]
    exact h2

/-- Witness for the amended C4 at a concrete ledger: approving the last
milestone of `lActive` completes the contract, while releasing the same
payment leaves it Active. -/
theorem completed_transition_only_in_approve_witness :
    (lPaid.contracts 0).state = .completed ∧
    (lRel.contracts 0).state = .active :=
  ⟨(completed_transition_only_in_approve.1 true 2 lActive 0 0 lPaid rfl).1 rfl,
    completed_transition_only_in_approve.2 true 100 2 lActive 0 0 lRel rfl⟩

/-- No ledger transaction decreases `contractCount`; only `createContract`
changes it (by one). -/
theorem LStep_contractCount_mono {l l' : Ledger} (st : LStep l l') :
    l.contractCount ≤ l'.contractCount := by
  cases st with
  | create hA hAg hS sndr athlete sponsor hash tv sd ed pt arbs lA id lB hns h =>
    obtain ⟨-, hc, -⟩ := createContract_ok h
    omega
  | addMs hA sndr tgt descs amts dls lA lB hns h =>
    obtain ⟨-, -, -, -, -, -, rfl⟩ := addMilestones_ok h
    exact le_refl _
  | activate sndr allowance tgt lA lB hns h =>
    obtain ⟨-, -, -, -, rfl⟩ := activateContract_ok h
    exact le_refl _
  | submit sndr tgt idxS ev lA lB hns h =>
    obtain ⟨-, -, -, -, rfl⟩ := submitMilestone_ok h
    exact le_refl _
  | approve t sndr tgt idxS lA lB hns h =>
    obtain ⟨-, -, -, -, -, -, hoth, -, -⟩ := approveMilestone_ok h
    exact le_of_eq hoth.1.symm
  | release t mv sndr tgt idxS lA lB hns h =>
    obtain ⟨-, -, -, -, -, rfl⟩ := releaseMilestonePayment_ok h
    exact le_refl _
  | reject sndr tgt idxS lA lB hns h =>
    obtain ⟨-, -, -, rfl⟩ := rejectMilestone_ok h
    exact le_refl _
  | raise sndr tgt lA lB hns h =>
    obtain ⟨-, -, rfl⟩ := raiseDispute_ok h
    exact le_refl _
  | resolve hA sndr tgt fav lA lB hns h =>
    obtain ⟨-, -, hoth, -⟩ := ledger_resolveDispute_ok h
    exact le_of_eq hoth.1.symm
  | update hA sndr tgt nh lA lB hns h =>
    obtain ⟨-, rfl⟩ := updateContract_ok h
    exact le_refl _

/-- Success inversion for `createDispute` on the id counter: the returned
dispute id is the current counter, which is bumped by one. -/
theorem createDispute_ok {engineAddr sender : Addr} {s : System}
    {contractId : Nat} {ev rsn : String} {now : Nat} {did : Nat} {s' : System}
    (h : DisputeResolution.createDispute engineAddr sender s contractId ev rsn now
      = .ok (did, s')) :
    did = s.disputeCount ∧ s'.disputeCount = s.disputeCount + 1 := by
  simp only [DisputeResolution.createDispute] at h
  split_ifs at h with h1 h2 h3 h4 h5 <;> try cases h
  all_goals split at h
  all_goals cases h
  all_goals exact ⟨rfl, rfl⟩

/-- `voteOnDispute` never changes `disputeCount`. -/
theorem voteOnDispute_count {hasArbRole hasLedgerArbRole : Addr → Bool}
    {engineAddr sender : Addr} {s : System} {disputeId : Nat} {fav : Bool}
    {s' : System}
    (h : DisputeResolution.voteOnDispute hasArbRole hasLedgerArbRole engineAddr
      sender s disputeId fav = .ok s') :
    s'.disputeCount = s.disputeCount := by
  simp only [DisputeResolution.voteOnDispute,
    DisputeResolution.resolveDisputeVote] at h
  split_ifs at h with h1 h2 h3 h4 h5 <;> first
    | (cases h; rfl)
    | cases h
    | (split at h <;> cases h <;> try rfl)

/-- Success inversion for `mintSponsorshipNFT` on the token counter. -/
theorem mint_ok {hasMinterRole : Addr → Bool} {sender recipient : Addr}
    {n : NFTState} {contractId : Nat} {uri : String} {tid : Nat} {n' : NFTState}
    (h : SponsorshipNFT.mintSponsorshipNFT hasMinterRole sender recipient n
      contractId uri = .ok (tid, n')) :
    tid = (n.tokenCounter + 1) % U256 ∧ n'.tokenCounter = tid := by
  simp only [SponsorshipNFT.mintSponsorshipNFT] at h
  split_ifs at h with h1 h2 h3 h4 <;> cases h
  exact ⟨rfl, rfl⟩

/-- Claim C6 counterexample: the very first minted NFT receives token id 1,
not 0 — the Counters counter is incremented before its first read, so the
token-id series starts at one, not zero as claimed for all three series. -/
theorem first_token_id_is_one :
    (SponsorshipNFT.mintSponsorshipNFT (fun _ => true) 9 2 {} 0 "u").map
      Prod.fst = .ok 1 ∧
    (SponsorshipNFT.mintSponsorshipNFT (fun _ => true) 9 2 {} 0 "u").map
      Prod.fst ≠ .ok 0 := by
  refine ⟨rfl, ?_⟩
  intro hcontra
  have h1 : (SponsorshipNFT.mintSponsorshipNFT (fun _ => true) 9 2 {} 0 "u").map
      Prod.fst = .ok 1 := rfl
  rw [h1] at hcontra
  exact absurd (Except.ok.inj hcontra) one_ne_zero

/-- Claim C6 (amended): contract ids and dispute ids each form a sequential
integer series starting at zero — creation returns the current counter and
bumps it by one, no other ledger transaction decreases the contract counter,
and votes do not change the dispute counter — while NFT token ids are
sequential but start at ONE (the counter is incremented before its first
read); in each series an assigned id is never reused because the counter only
moves forward. -/
theorem sequential_ids :
    (∀ (hasAthleteRole hasAgentRole hasSponsorRole : Addr → Bool) (sender : Addr)
        (l : Ledger) (athlete sponsor : Addr) (hash : String)
        (tv sd ed : Nat) (pt : Addr) (arbs : List Addr) (id : Nat) (l' : Ledger),
      AthleteContract.createContract hasAthleteRole hasAgentRole hasSponsorRole
        sender l athlete sponsor hash tv sd ed pt arbs = .ok (id, l') →
      id = l.contractCount ∧ l'.contractCount = l.contractCount + 1) ∧
    (∀ (l l' : Ledger), LStep l l' → l.contractCount ≤ l'.contractCount) ∧
    (∀ (engineAddr sender : Addr) (s : System) (contractId : Nat)
        (ev rsn : String) (now : Nat) (did : Nat) (s' : System),
      DisputeResolution.createDispute engineAddr sender s contractId ev rsn now =
        .ok (did, s') →
      did = s.disputeCount ∧ s'.disputeCount = s.disputeCount + 1) ∧
    (∀ (hasArbRole hasLedgerArbRole : Addr → Bool) (engineAddr sender : Addr)
        (s : System) (disputeId : Nat) (fav : Bool) (s' : System),
      DisputeResolution.voteOnDispute hasArbRole hasLedgerArbRole engineAddr
        sender s disputeId fav = .ok s' →
      s'.disputeCount = s.disputeCount) ∧
    (∀ (hasMinterRole : Addr → Bool) (sender recipient : Addr) (n : NFTState)
        (contractId : Nat) (uri : String) (tid : Nat) (n' : NFTState),
      SponsorshipNFT.mintSponsorshipNFT hasMinterRole sender recipient n
        contractId uri = .ok (tid, n') →
      tid = (n.tokenCounter + 1) % U256 ∧ n'.tokenCounter = tid ∧
      (n.tokenCounter + 1 < U256 → tid = n.tokenCounter + 1)) ∧
    (Ledger.init.contractCount = 0 ∧ ({} : System).disputeCount = 0 ∧
      ({} : NFTState).tokenCounter = 0) := by
  refine ⟨?_, ?_, ?_, ?_, ?_, rfl, rfl, rfl⟩
  · intro _ _ _ _ l _ _ _ _ _ _ _ _ id l' h
    obtain ⟨hid, hc, -⟩ := createContract_ok h
    exact ⟨hid, hc⟩
  · exact fun l l' st => LStep_contractCount_mono st
  · exact fun _ _ _ _ _ _ _ _ _ h => createDispute_ok h
  · exact fun _ _ _ _ _ _ _ _ h => voteOnDispute_count h
  · intro _ _ _ n _ _ tid n' h
    obtain ⟨h1, h2⟩ := mint_ok h
    exact ⟨h1, h2, fun hlt => by rw [h1, Nat.mod_eq_of_lt hlt]⟩

/-- Witness for the amended C6 at concrete states: creating on `lDraft`
(counter 1) returns id 1 and bumps to 2; creating a dispute on `sysActive`
(counter 0) returns id 0 and bumps to 1; the first mint sets the token
counter to 1 = 0 + 1. -/
theorem sequential_ids_witness :
    ((1 : Nat) = lDraft.contractCount ∧
      lC6.contractCount = lDraft.contractCount + 1) ∧
    ((0 : Nat) = sysActive.disputeCount ∧
      sysAfterDispute.disputeCount = sysActive.disputeCount + 1) ∧
    (nft1.tokenCounter = 1 ∧ (1 : Nat) = ({} : NFTState).tokenCounter + 1) := by
  refine ⟨?_, ?_, ?_⟩
  · exact sequential_ids.1 (fun _ => true) (fun _ => true) (fun _ => true) 3
      lDraft 1 2 "h" 100 10 20 0 [] 1 lC6 rfl
  · exact sequential_ids.2.2.1 1 1 sysActive 0 "e" "r" 50 0 sysAfterDispute rfl
  · have h := sequential_ids.2.2.2.2.1 (fun _ => true) 9 2 {} 0 "u" 1 nft1 rfl
    exact ⟨h.2.1, h.2.2 (by decide)⟩

/-- One ledger transaction preserves the property that every id at or above
the contract counter has all core fields zero-initialized: `createContract`
writes only at the counter, and every other entry point either leaves such a
record untouched (its authorization or state guard cannot pass on it with a
nonzero sender) or changes only the milestone list or document fields. -/
theorem LStep_preserves_coreZero {l l' : Ledger} (st : LStep l l')
    (inv : ∀ id, l.contractCount ≤ id → coreZero (l.contracts id)) :
    ∀ id, l'.contractCount ≤ id → coreZero (l'.contracts id) := by
  intro id hid
  cases st with
  | create hA hAg hS sndr athlete sponsor hash tv sd ed pt arbs lA cid lB hns h =>
    obtain ⟨-, hc, hw⟩ := createContract_ok h
    rw [hc] at hid
    rw [hw, Function.update_noteq (by omega)]
    exact inv id (by omega)
  | addMs hA sndr tgt descs amts dls lA lB hns h =>
    obtain ⟨-, -, -, -, -, -, rfl⟩ := addMilestones_ok h
    by_cases hc : id = tgt
    · subst hc
      simp only [Ledger.writeAt, Function.update_same]
      exact inv id hid
    · simp only [Ledger.writeAt]
      rw [Function.update_noteq hc]
      exact inv id hid
  | activate sndr allowance tgt lA lB hns h =>
    obtain ⟨h1, -, -, -, rfl⟩ := activateContract_ok h
    by_cases hc : id = tgt
    · subst hc
      exact absurd (h1.trans (inv id hid).2.1) hns
    · simp only [Ledger.writeAt]
      rw [Function.update_noteq hc]
      exact inv id hid
  | submit sndr tgt idxS ev lA lB hns h =>
    obtain ⟨h1, -, -, -, rfl⟩ := submitMilestone_ok h
    by_cases hc : id = tgt
    · subst hc
      exact absurd (h1.trans (inv id hid).1) hns
    · simp only [Ledger.writeAt]
      rw [Function.update_noteq hc]
      exact inv id hid
  | approve t sndr tgt idxS lA lB hns h =>
    obtain ⟨h1, -, -, -, -, -, hoth, -, -⟩ := approveMilestone_ok h
    rw [hoth.1] at hid
    by_cases hc : id = tgt
    · subst hc
      exact absurd (h1.trans (inv id hid).2.1) hns
    · rw [hoth.2 id hc]
      exact inv id hid
  | release t mv sndr tgt idxS lA lB hns h =>
    obtain ⟨h1, -, -, -, -, rfl⟩ := releaseMilestonePayment_ok h
    by_cases hc : id = tgt
    · subst hc
      exact absurd (h1.trans (inv id hid).2.1) hns
    · simp only [Ledger.writeAt]
      rw [Function.update_noteq hc]
      exact inv id hid
  | reject sndr tgt idxS lA lB hns h =>
    obtain ⟨h1, -, -, rfl⟩ := rejectMilestone_ok h
    by_cases hc : id = tgt
    · subst hc
      exact absurd (h1.trans (inv id hid).2.1) hns
    · simp only [Ledger.writeAt]
      rw [Function.update_noteq hc]
      exact inv id hid
  | raise sndr tgt lA lB hns h =>
    obtain ⟨h1, -, rfl⟩ := raiseDispute_ok h
    by_cases hc : id = tgt
    · subst hc
      obtain hz := inv id hid
      cases h1 with
      | inl ha => exact absurd (ha.trans hz.1) hns
      | inr hsp => exact absurd (hsp.trans hz.2.1) hns
    · simp only [Ledger.writeAt]
      rw [Function.update_noteq hc]
      exact inv id hid
  | resolve hA sndr tgt fav lA lB hns h =>
    obtain ⟨-, h2, hoth, -⟩ := ledger_resolveDispute_ok h
    rw [hoth.1] at hid
    by_cases hc : id = tgt
    · subst hc
      rw [(inv id hid).2.2.2.2.2.1] at h2
      cases h2
    · rw [hoth.2 id hc]
      exact inv id hid
  | update hA sndr tgt nh lA lB hns h =>
    obtain ⟨-, rfl⟩ := updateContract_ok h
    by_cases hc : id = tgt
    · subst hc
      simp only [Ledger.writeAt, Function.update_same]
      exact inv id hid
    · simp only [Ledger.writeAt]
      rw [Function.update_noteq hc]
      exact inv id hid

/-- On every reachable ledger state, every id at or above the counter still
carries the zero-initialized core fields. -/
theorem LReachable_coreZero {l : Ledger} (hl : LReachable l) :
    ∀ id, l.contractCount ≤ id → coreZero (l.contracts id) := by
  induction hl with
  | refl => exact fun id _ => ⟨rfl, rfl, rfl, rfl, rfl, rfl, rfl⟩
  | tail hab hstep ih => exact LStep_preserves_coreZero hstep ih

/-- Claim C10 (amended): on every reachable ledger state, `getContractDetails`
on a contract id at or above `contractCount` succeeds (it is a total read)
and returns the zero address for athlete and sponsor, zero for totalValue,
startDate and endDate, the Draft state, and the zero payment-asset address —
these core fields are written only by `createContract`, which always writes
at a fresh id.  `getMilestoneCount` at such an id, however, can be nonzero,
because a caller holding the Agent role can append zero-amount milestones at
a never-created id (see the counterexample). -/
theorem unknown_id_reads_default (l : Ledger) (hl : LReachable l)
    (contractId : Nat) (hid : l.contractCount ≤ contractId) :
    (AthleteContract.getContractDetails l contractId).athlete = 0 ∧
    (AthleteContract.getContractDetails l contractId).sponsor = 0 ∧
    (AthleteContract.getContractDetails l contractId).totalValue = 0 ∧
    (AthleteContract.getContractDetails l contractId).startDate = 0 ∧
    (AthleteContract.getContractDetails l contractId).endDate = 0 ∧
    (AthleteContract.getContractDetails l contractId).state = .draft ∧
    (AthleteContract.getContractDetails l contractId).paymentToken = 0 := by
  obtain ⟨h1, h2, h3, h4, h5, h6, h7⟩ := LReachable_coreZero hl contractId hid
  exact ⟨h1, h2, h3, h4, h5, h6, h7⟩

/-- Witness for the amended C10 at the freshly deployed ledger and id 0. -/
theorem unknown_id_reads_default_witness :
    (AthleteContract.getContractDetails Ledger.init 0).athlete = 0 ∧
    (AthleteContract.getContractDetails Ledger.init 0).sponsor = 0 ∧
    (AthleteContract.getContractDetails Ledger.init 0).totalValue = 0 ∧
    (AthleteContract.getContractDetails Ledger.init 0).startDate = 0 ∧
    (AthleteContract.getContractDetails Ledger.init 0).endDate = 0 ∧
    (AthleteContract.getContractDetails Ledger.init 0).state = .draft ∧
    (AthleteContract.getContractDetails Ledger.init 0).paymentToken = 0 :=
  unknown_id_reads_default Ledger.init Relation.ReflTransGen.refl 0 (Nat.zero_le 0)

/-- Claim C10 counterexample: from the freshly deployed ledger, an Agent-role
holder (address 7) successfully calls `addMilestones` on the never-created
contract id 0 with a single zero-amount milestone (sum 0 equals the default
totalValue 0) — on the resulting reachable state, id 0 is still at or above
`contractCount = 0` yet `getMilestoneCount` returns 1, not 0. -/
theorem phantom_milestones_at_unknown_id :
    LReachable lPhantom ∧ lPhantom.contractCount = 0 ∧
    AthleteContract.getMilestoneCount lPhantom 0 = 1 := by
  refine ⟨Relation.ReflTransGen.single ?_, rfl, rfl⟩
  exact LStep.addMs (fun a => a == 7) 7 0 [""] [0] [0] Ledger.init lPhantom
    (by decide) rfl

/-- Claim C1 counterexample: on `sysDisputed` (open dispute 0 with no votes,
ledger contract 0 Disputed, engine address 9 on its arbitrator list), the
FIRST athlete-favor vote already resolves the dispute (1 vote cast, 1 > 1/2),
and a second vote — in either direction — fails with InvalidState: neither
the (athleteFavor, athleteFavor) nor the (athleteFavor, sponsorFavor)
two-vote scenario of the claim can occur, since no dispute ever reaches two
recorded votes. -/
theorem two_vote_scenarios_unreachable :
    (DisputeResolution.voteOnDispute (fun _ => true) noRole 9 5 sysDisputed 0
        true).map
      (fun s' => ((s'.disputes 0).resolved,
        (s'.disputes 0).votedArbitrators.length)) = .ok (true, 1) ∧
    (DisputeResolution.voteOnDispute (fun _ => true) noRole 9 5 sysDisputed 0
        true).bind
      (fun s' => DisputeResolution.voteOnDispute (fun _ => true) noRole 9 6 s' 0
        true) = .error .invalidState ∧
    (DisputeResolution.voteOnDispute (fun _ => true) noRole 9 5 sysDisputed 0
        true).bind
      (fun s' => DisputeResolution.voteOnDispute (fun _ => true) noRole 9 6 s' 0
        false) = .error .invalidState :=
  ⟨rfl, rfl, rfl⟩

/-- Claim C1 (amended): resolution triggers exactly when one tally strictly
exceeds half of the votes cast so far, but the count of votes cast INCLUDES
the vote just recorded — so the very first successfully recorded vote (tally
1 > 0 = 1/2) immediately resolves the dispute in the direction of that vote
(given the nested ledger callback succeeds), and any subsequent vote fails
with InvalidState; in particular the two-vote tallies 2-0 and 1-1 described
by the claim are unreachable. -/
theorem first_vote_always_resolves
    (hasArbRole hasLedgerArbRole : Addr → Bool) (engineAddr sender : Addr)
    (s : System) (disputeId : Nat) (favor : Bool)
    (hrole : hasArbRole sender)
    (hres : (s.disputes disputeId).resolved = false)
    (hvoted : (s.disputes disputeId).votedArbitrators = [])
    (hav : (s.disputes disputeId).athleteVotes = 0)
    (hsv : (s.disputes disputeId).sponsorVotes = 0)
    (hstate : (s.ledger.contracts (s.disputes disputeId).contractId).state =
      .disputed)
    (hauth : engineAddr ∈
        (s.ledger.contracts (s.disputes disputeId).contractId).arbitrators ∨
      hasLedgerArbRole engineAddr) :
    (DisputeResolution.voteOnDispute hasArbRole hasLedgerArbRole engineAddr sender
        s disputeId favor).map
      (fun s' => ((s'.disputes disputeId).resolved,
        (s'.disputes disputeId).athleteFavor,
        (s'.disputes disputeId).votedArbitrators.length,
        (s'.ledger.contracts (s.disputes disputeId).contractId).state)) =
      .ok (true, favor, 1,
        if favor then ContractState.active else ContractState.terminated) ∧
    (∀ (sender2 : Addr) (favor2 : Bool), hasArbRole sender2 →
      (DisputeResolution.voteOnDispute hasArbRole hasLedgerArbRole engineAddr
          sender s disputeId favor).bind
        (fun s' => DisputeResolution.voteOnDispute hasArbRole hasLedgerArbRole
          engineAddr sender2 s' disputeId favor2) = .error .invalidState) := by
  constructor
  · cases favor <;>
      simp [DisputeResolution.voteOnDispute, DisputeResolution.resolveDisputeVote,
        AthleteContract.resolveDispute, Ledger.writeAt, Except.map, hrole, hres,
        hvoted, hav, hsv, hstate, hauth, Function.update_same]
  · intro sender2 favor2 hrole2
    cases favor <;>
      simp [DisputeResolution.voteOnDispute, DisputeResolution.resolveDisputeVote,
        AthleteContract.resolveDispute, Ledger.writeAt, Except.map, Except.bind,
        hrole, hrole2, hres, hvoted, hav, hsv, hstate, hauth,
        Function.update_same]

/-- Witness for the amended C1 on `sysDisputed`: arbitrator 5's single
athlete-favor vote on dispute 0 resolves it in the athlete's favor and makes
ledger contract 0 Active; arbitrator 6's follow-up vote fails with
InvalidState. -/
theorem first_vote_always_resolves_witness :
    (DisputeResolution.voteOnDispute (fun _ => true) noRole 9 5 sysDisputed 0
        true).map
      (fun s' => ((s'.disputes 0).resolved, (s'.disputes 0).athleteFavor,
        (s'.disputes 0).votedArbitrators.length,
        (s'.ledger.contracts 0).state)) =
      .ok (true, true, 1, ContractState.active) ∧
    (DisputeResolution.voteOnDispute (fun _ => true) noRole 9 5 sysDisputed 0
        true).bind
      (fun s' => DisputeResolution.voteOnDispute (fun _ => true) noRole 9 6 s' 0
        false) = .error .invalidState := by
  have h := first_vote_always_resolves (fun _ => true) noRole 9 5 sysDisputed 0
    true rfl rfl rfl rfl rfl rfl (Or.inl (by decide))
  exact ⟨h.1, h.2 6 false rfl⟩

/-- An error of the ledger's `resolveDispute` is Unauthorized or InvalidState,
never NotFound. -/
theorem ledger_resolveDispute_err {hasArbitratorRole : Addr → Bool}
    {sender : Addr} {l : Ledger} {contractId : Nat} {athleteFavor : Bool}
    {e : Err}
    (h : AthleteContract.resolveDispute hasArbitratorRole sender l contractId
      athleteFavor = .error e) :
    e = .unauthorized ∨ e = .invalidState := by
  simp only [AthleteContract.resolveDispute] at h
  split_ifs at h <;> cases h <;> simp

/-- Claim C9: `voteOnDispute` performs no existence check on the dispute id —
on a dispute id whose record is still zero-initialized (as for every id never
assigned by `createDispute`), a vote by an Arbitrator-role holder is processed
rather than rejected with NotFound: the default record passes the not-resolved
check, the single vote is recorded as a strict majority (1 > 1/2 = 0), and the
dispute is immediately resolved, invoking the Ledger's `resolveDispute` on the
record's default contract id 0 — the vote succeeds whenever that nested call
does not revert (ledger contract 0 Disputed, engine address authorized), here
flipping ledger contract 0 to Active; and when the vote does fail, the error
is the nested call's Unauthorized or InvalidState, never NotFound. -/
theorem phantom_vote_resolves_contract_zero
    (hasArbRole hasLedgerArbRole : Addr → Bool) (engineAddr sender : Addr)
    (s : System) (disputeId : Nat)
    (hrole : hasArbRole sender)
    (hdef : s.disputes disputeId = ({} : DisputeRec)) :
    ((s.ledger.contracts 0).state = .disputed →
      (engineAddr ∈ (s.ledger.contracts 0).arbitrators ∨
        hasLedgerArbRole engineAddr) →
      (DisputeResolution.voteOnDispute hasArbRole hasLedgerArbRole engineAddr
          sender s disputeId true).map
        (fun s' => ((s'.disputes disputeId).resolved,
          (s'.disputes disputeId).athleteFavor,
          (s'.disputes disputeId).votedArbitrators.length,
          (s'.disputes disputeId).contractId,
          (s'.ledger.contracts 0).state)) =
        .ok (true, true, 1, 0, ContractState.active)) ∧
    (∀ e : Err,
      DisputeResolution.voteOnDispute hasArbRole hasLedgerArbRole engineAddr
        sender s disputeId true = .error e →
      e = .unauthorized ∨ e = .invalidState) := by
  constructor
  · intro hstate hauth
    simp [DisputeResolution.voteOnDispute, DisputeResolution.resolveDisputeVote,
      AthleteContract.resolveDispute, Ledger.writeAt, Except.map, hrole, hdef,
      hstate, hauth, Function.update_same]
  · intro e hEq
    cases hres : AthleteContract.resolveDispute hasLedgerArbRole engineAddr
        s.ledger 0 true with
    | error e2 =>
      have hv : DisputeResolution.voteOnDispute hasArbRole hasLedgerArbRole
          engineAddr sender s disputeId true = .error e2 := by
        simp [DisputeResolution.voteOnDispute,
          DisputeResolution.resolveDisputeVote, hrole, hdef, hres,
          Function.update_same]
      rw [hv] at hEq
      cases hEq
      exact ledger_resolveDispute_err hres
    | ok l2 =>
      have hv : DisputeResolution.voteOnDispute hasArbRole hasLedgerArbRole
          engineAddr sender s disputeId true ≠ .error e := by
        simp [DisputeResolution.voteOnDispute,
          DisputeResolution.resolveDisputeVote, hrole, hdef, hres,
          Function.update_same]
      exact absurd hEq hv

/-- Witness for C9 on `sysDisputed`: dispute id 5 was never created (its
record is zero-initialized), yet arbitrator 5's vote succeeds, resolves
dispute 5 and flips ledger contract 0 — the default contract id of the
phantom record — to Active. -/
theorem phantom_vote_resolves_contract_zero_witness :
    (DisputeResolution.voteOnDispute (fun _ => true) noRole 9 5 sysDisputed 5
        true).map
      (fun s' => ((s'.disputes 5).resolved, (s'.disputes 5).athleteFavor,
        (s'.disputes 5).votedArbitrators.length, (s'.disputes 5).contractId,
        (s'.ledger.contracts 0).state)) =
      .ok (true, true, 1, 0, ContractState.active) :=
  (phantom_vote_resolves_contract_zero (fun _ => true) noRole 9 5 sysDisputed 5
    rfl rfl).1 rfl (Or.inl (by decide))
